import Mathlib

/-
Verification of the WnLRenderer repository: a shallow embedding, in Lean 4,
of the data model and operations of `src/src/window.h`,
`src/include/wnlrenderer/renderer.h` and the render loop of `src/src/main.cpp`,
together with theorems settling the frozen claims about them.

Machine integers (GLuint, GLint, GLsizei, uint32_t) are modelled as Nat / Int;
GLSL / glm floats are modelled as exact rationals, which is faithful to the
algebraic structure of the matrix and position computations under scrutiny.
Members a C++ constructor leaves uninitialized are modelled as `none`.
-/

set_option autoImplicit false

namespace WnL

/-! ## OpenGL enum constants (values from the GLES 3.1 headers) -/

def GL_RGBA : Nat := 0x1908
def GL_RGB : Nat := 0x1907
def GL_RED : Nat := 0x1903
def GLFW_TRUE : Int := 1

/-! ## Window (`src/src/window.h`)

`Window` holds `std::atomic<bool> context_out_ = false`.  `get_context` does a
`compare_exchange_strong(expected = false, true)`: on failure (the flag was
already `true`) it throws "OpenGL context already acquired!" and the flag keeps
its value; on success the flag is now `true` and an `OpenGLContext` token is
returned.  `~OpenGLContext` stores `false` into the flag.  We model the
per-window history as a list of acquire / release events acting on a state
that also counts the live tokens. -/

inductive WinOp where
  | acquire
  | release
deriving DecidableEq

structure WinState where
  context_out : Bool
  liveTokens : Nat
deriving DecidableEq

/-- One event on a `Window`.  `acquire` is `Window::get_context` (the CAS and,
on success, handing out a token); `release` is `OpenGLContext::~OpenGLContext`
(which stores `false` unconditionally).  The `Option String` is the thrown
`runtime_error` message, `none` when nothing is thrown. -/
def winStep (s : WinState) (op : WinOp) : WinState × Option String :=
  match op with
  | WinOp.acquire =>
      if s.context_out then
        (s, some "OpenGL context already acquired!")
      else
        ({ context_out := true, liveTokens := s.liveTokens + 1 }, none)
  | WinOp.release =>
      ({ context_out := false, liveTokens := s.liveTokens - 1 }, none)

/-- The window starts with `context_out_ = false` and no token outstanding. -/
def winInit : WinState := { context_out := false, liveTokens := 0 }

def runWin (ops : List WinOp) : WinState :=
  ops.foldl (fun s op => (winStep s op).1) winInit

/-- The reachable-state invariant of the context gate: the flag is set exactly
when one token is live, and never more than one token is live. -/
def WinInv (s : WinState) : Prop :=
  s.liveTokens ≤ 1 ∧ s.context_out = decide (s.liveTokens = 1)

theorem winStep_preserves_inv (s : WinState) (op : WinOp) :
    WinInv s → WinInv (winStep s op).1 := by
  rintro ⟨hle, hflag⟩
  cases op with
  | acquire =>
      by_cases h : s.context_out
      · have hstep : (winStep s WinOp.acquire).1 = s := by simp [winStep, h]
        rw [hstep]
        exact ⟨hle, hflag⟩
      · have h0 : s.liveTokens = 0 := by
          have : ¬ s.liveTokens = 1 := by
            intro h1
            rw [hflag, h1] at h
            simp at h
          omega
        simp [winStep, h, WinInv, h0]
  | release =>
      constructor
      · simp [winStep]
        omega
      · simp [winStep]
        omega

theorem runWin_inv (ops : List WinOp) : WinInv (runWin ops) := by
  have hgen : ∀ (l : List WinOp) (s : WinState), WinInv s →
      WinInv (l.foldl (fun s op => (winStep s op).1) s) := by
    intro l
    induction l with
    | nil => intro s hs; simpa using hs
    | cons op rest ih =>
        intro s hs
        exact ih _ (winStep_preserves_inv s op hs)
  exact hgen ops winInit (by simp [WinInv, winInit])

/-- C1: For every Window, at most one OpenGLContext token is live at any time:
along every history of get_context / token-destruction events at most one
token is outstanding; a successful get_context flips the flag from false to
true and hands out a token; when a token is already outstanding (flag true)
get_context throws "OpenGL context already acquired!" and leaves the state
unchanged; destroying the token resets the flag to false, after which
get_context succeeds again. -/
theorem context_token_exclusive :
    (∀ ops : List WinOp, (runWin ops).liveTokens ≤ 1)
    ∧ (∀ n : Nat, winStep ⟨true, n⟩ WinOp.acquire
        = (⟨true, n⟩, some "OpenGL context already acquired!"))
    ∧ (∀ n : Nat, winStep ⟨false, n⟩ WinOp.acquire = (⟨true, n + 1⟩, none))
    ∧ (∀ s : WinState, (winStep s WinOp.release).1.context_out = false
        ∧ (winStep s WinOp.release).2 = none)
    ∧ (∀ s : WinState,
        (winStep (winStep s WinOp.release).1 WinOp.acquire).2 = none
        ∧ (winStep (winStep s WinOp.release).1 WinOp.acquire).1.context_out = true) := by
  refine ⟨fun ops => (runWin_inv ops).1, fun n => ?_, fun n => ?_, fun s => ?_, fun s => ?_⟩
  · simp [winStep]
  · simp [winStep]
  · simp [winStep]
  · simp [winStep]

/-! ## `Window::should_close` (`src/src/window.h`, lines 53-55)

```cpp
auto should_close() -> bool {
    return glfwWindowShouldClose(window_.get()) != GLFW_TRUE;
}
```
The GLFW flag is 0 initially and is set to `GLFW_TRUE` (1) when closing is
requested (for instance by the Escape key callback). -/

def glfwFlag (closeRequested : Bool) : Int := if closeRequested then 1 else 0

def should_close (flag : Int) : Bool := flag != GLFW_TRUE

/-- C9: Window::should_close returns the negation of GLFW's
window-should-close flag: true exactly while closing has not been requested,
false once it has. -/
theorem should_close_negation :
    ∀ b : Bool, should_close (glfwFlag b) = !b := by decide

/-! ## `ShaderProgram` location caches
(`src/include/wnlrenderer/renderer.h`, lines 127-149)

```cpp
GLint get_attrib_location(std::string const& name) const {
    if (m_AttributeLocationCache.contains(name)) {
        return m_AttributeLocationCache.at(name);
    }
    GLint location = glGetAttribLocation(shaderProgram_, name.c_str());
    m_AttributeLocationCache[name] = location;
    return location;
}
```
and `get_uniform_location` identically over `m_UniformLocationCache` with
`glGetUniformLocation`.  The `unordered_map` is modelled as an association
list; the GL driver's answer is an oracle `gl : String → Int` (which may
return a negative not-found location).  The state also records the list of
names for which the GL query was actually issued, in order. -/

structure LocCache where
  cache : List (String × Int)
  queries : List String
deriving DecidableEq

def get_uniform_location (gl : String → Int) (st : LocCache) (name : String) :
    Int × LocCache :=
  match st.cache.lookup name with
  | some v => (v, st)
  | none => (gl name, ⟨(name, gl name) :: st.cache, st.queries ++ [name]⟩)

def get_attrib_location (gl : String → Int) (st : LocCache) (name : String) :
    Int × LocCache :=
  match st.cache.lookup name with
  | some v => (v, st)
  | none => (gl name, ⟨(name, gl name) :: st.cache, st.queries ++ [name]⟩)

def runLookups (gl : String → Int) (st : LocCache) (names : List String) :
    LocCache :=
  names.foldl (fun s n => (get_uniform_location gl s n).2) st

/-- Every name ever queried is now cached, and no name was queried twice. -/
def CacheInv (st : LocCache) : Prop :=
  st.queries.Nodup ∧ ∀ n ∈ st.queries, (st.cache.lookup n).isSome = true

theorem get_uniform_location_preserves_inv (gl : String → Int) (st : LocCache)
    (name : String) : CacheInv st → CacheInv (get_uniform_location gl st name).2 := by
  rintro ⟨hnd, hmem⟩
  unfold get_uniform_location
  cases h : st.cache.lookup name with
  | some v => exact ⟨hnd, hmem⟩
  | none =>
      have hnotq : name ∉ st.queries := by
        intro hq
        have := hmem name hq
        rw [h] at this
        simp at this
      constructor
      · simp [List.nodup_append, hnd, hnotq]
      · intro n hn
        simp only [List.mem_append, List.mem_singleton] at hn
        by_cases hne : n = name
        · subst hne
          simp [List.lookup]
        · have hnq : n ∈ st.queries := by
            rcases hn with hn | hn
            · exact hn
            · exact absurd hn hne
          have := hmem n hnq
          simp only [List.lookup]
          have hbeq : (n == name) = false := by
            simp [hne]
          rw [hbeq]
          exact this

theorem runLookups_inv (gl : String → Int) (names : List String) :
    CacheInv (runLookups gl ⟨[], []⟩ names) := by
  have hgen : ∀ (l : List String) (s : LocCache), CacheInv s →
      CacheInv (l.foldl (fun s n => (get_uniform_location gl s n).2) s) := by
    intro l
    induction l with
    | nil => intro s hs; simpa using hs
    | cons n rest ih =>
        intro s hs
        exact ih _ (get_uniform_location_preserves_inv gl s n hs)
  exact hgen names ⟨[], []⟩ (by simp [CacheInv])

/-- C6: get_uniform_location and get_attrib_location perform the underlying GL
query at most once per name: a call on an uncached name issues the query and
stores the result (negative included) in the cache, a call on a cached name
returns the stored value with no query and no state change, an immediate
second call with the same name returns the first call's value and changes
nothing, and along any call sequence from a fresh ShaderProgram no name is
queried twice; get_attrib_location is the same computation on its own cache. -/
theorem location_cache_memo (gl : String → Int) (st : LocCache) (name : String)
    (names : List String) :
    (st.cache.lookup name = none →
      get_uniform_location gl st name
        = (gl name, ⟨(name, gl name) :: st.cache, st.queries ++ [name]⟩))
    ∧ (∀ v : Int, st.cache.lookup name = some v →
        get_uniform_location gl st name = (v, st))
    ∧ get_uniform_location gl (get_uniform_location gl st name).2 name
        = get_uniform_location gl st name
    ∧ (runLookups gl ⟨[], []⟩ names).queries.Nodup
    ∧ get_attrib_location gl st name = get_uniform_location gl st name := by
  refine ⟨?_, ?_, ?_, (runLookups_inv gl names).1, rfl⟩
  · intro h
    simp [get_uniform_location, h]
  · intro v h
    simp [get_uniform_location, h]
  · cases h : st.cache.lookup name with
    | some v => simp [get_uniform_location, h]
    | none =>
        simp only [get_uniform_location, h]
        simp [List.lookup]

/-- Witness for C6 at a concrete input: a fresh cache, the name "u_texture"
and a driver answering the not-found location -1; the first call queries and
caches -1, and calling again returns the same. -/
theorem location_cache_memo_witness :
    get_uniform_location (fun _ => -1) ⟨[], []⟩ "u_texture"
      = (-1, ⟨[("u_texture", -1)], ["u_texture"]⟩)
    ∧ get_uniform_location (fun _ => -1)
        (get_uniform_location (fun _ => -1) ⟨[], []⟩ "u_texture").2 "u_texture"
      = get_uniform_location (fun _ => -1) ⟨[], []⟩ "u_texture" := by
  refine ⟨?_, ?_⟩
  · exact (location_cache_memo (fun _ => -1) ⟨[], []⟩ "u_texture" []).1 rfl
  · exact (location_cache_memo (fun _ => -1) ⟨[], []⟩ "u_texture" []).2.2.1

/-! ## glm vectors and column-major matrices

`glm::mat4` stores four columns; `m[c]` is column `c`.  `glm::translate(m, v)`
replaces the last column by `m[0]*v.x + m[1]*v.y + m[2]*v.z + m[3]`;
`glm::scale(m, v)` scales the first three columns by the components of `v`;
matrix multiplication combines columns the standard way.  Components are
modelled as exact rationals. -/

structure Vec2 where
  x : ℚ
  y : ℚ
deriving DecidableEq

structure Vec3 where
  x : ℚ
  y : ℚ
  z : ℚ
deriving DecidableEq

structure Vec4 where
  x : ℚ
  y : ℚ
  z : ℚ
  w : ℚ
deriving DecidableEq

def Vec4.smul (a : ℚ) (v : Vec4) : Vec4 := ⟨a * v.x, a * v.y, a * v.z, a * v.w⟩

def Vec4.add (u v : Vec4) : Vec4 := ⟨u.x + v.x, u.y + v.y, u.z + v.z, u.w + v.w⟩

structure Mat4 where
  c0 : Vec4
  c1 : Vec4
  c2 : Vec4
  c3 : Vec4
deriving DecidableEq

/-- `glm::mat4(1.0F)`, the identity. -/
def matIdent : Mat4 := ⟨⟨1,0,0,0⟩, ⟨0,1,0,0⟩, ⟨0,0,1,0⟩, ⟨0,0,0,1⟩⟩

/-- `glm::translate(m, v)`. -/
def glmTranslate (m : Mat4) (v : Vec3) : Mat4 :=
  { m with c3 := Vec4.add (Vec4.add (Vec4.add (Vec4.smul v.x m.c0)
      (Vec4.smul v.y m.c1)) (Vec4.smul v.z m.c2)) m.c3 }

/-- `glm::scale(m, v)`. -/
def glmScale (m : Mat4) (v : Vec3) : Mat4 :=
  ⟨Vec4.smul v.x m.c0, Vec4.smul v.y m.c1, Vec4.smul v.z m.c2, m.c3⟩

/-- Matrix-vector product, `m * v` in glm. -/
def mulMV (m : Mat4) (v : Vec4) : Vec4 :=
  Vec4.add (Vec4.add (Vec4.add (Vec4.smul v.x m.c0) (Vec4.smul v.y m.c1))
    (Vec4.smul v.z m.c2)) (Vec4.smul v.w m.c3)

/-- Matrix-matrix product, `a * b` in glm. -/
def mulMat (a b : Mat4) : Mat4 :=
  ⟨mulMV a b.c0, mulMV a b.c1, mulMV a b.c2, mulMV a b.c3⟩

/-! ## `Renderable` transform state
(`src/include/wnlrenderer/renderer.h`, lines 479-608)

The drawing-relevant fields of a `Renderable`: `position_`, `scale_`,
`transform_` and `dirty_`.  The constructors initialize `transform_` to the
identity and leave `dirty_` value-initialized to `false`; `position_` and
`scale_` are left uninitialized, so the model takes their initial contents as
parameters. -/

structure RenderState where
  position : Vec3
  scale : Vec2
  transform : Mat4
  dirty : Bool
deriving DecidableEq

def mkRenderable (p0 : Vec3) (s0 : Vec2) : RenderState :=
  { position := p0, scale := s0, transform := matIdent, dirty := false }

/-- `Renderable::set_position(PositionCenter_t, position)`. -/
def set_position_center (st : RenderState) (p : Vec3) : RenderState :=
  { st with position := p, dirty := true }

/-- `Renderable::set_position(PositionTopLeft_t, position)`: stores the
center, offset by half the current scale. -/
def set_position_topleft (st : RenderState) (p : Vec3) : RenderState :=
  { st with
      position := ⟨p.x + st.scale.x / 2, p.y + st.scale.y / 2, p.z⟩,
      dirty := true }

/-- `Renderable::set_scale(scale)`. -/
def set_scale (st : RenderState) (s : Vec2) : RenderState :=
  { st with scale := s, dirty := true }

/-- The transform-update step at the top of `Renderable::draw` (identical in
the `GL_RED` and non-`GL_RED` overloads): when `dirty_` is set, recompute
`transform_ = translate(mat4(1), position_) * scale(mat4(1), vec3(scale_, 0))`.
The code does not clear `dirty_`.  The returned Bool records whether the
matrix was recomputed by this call. -/
def recomputedTransform (st : RenderState) : Mat4 :=
  mulMat (glmTranslate matIdent st.position)
    (glmScale matIdent ⟨st.scale.x, st.scale.y, 0⟩)

def draw_update (st : RenderState) : RenderState × Bool :=
  if st.dirty then ({ st with transform := recomputedTransform st }, true)
  else (st, false)

/-- C2 (code evaluation): the dirty flag is never cleared.  After a set_scale,
the first draw recomputes the transform, but the state it leaves is still
dirty, so a second draw with no intervening set_position / set_scale
recomputes again instead of reusing the cached matrix. -/
theorem draw_dirty_never_cleared :
    (draw_update (set_scale (mkRenderable ⟨0,0,0⟩ ⟨1,1⟩) ⟨2,3⟩)).2 = true
    ∧ (draw_update (set_scale (mkRenderable ⟨0,0,0⟩ ⟨1,1⟩) ⟨2,3⟩)).1.dirty = true
    ∧ (draw_update
        (draw_update (set_scale (mkRenderable ⟨0,0,0⟩ ⟨1,1⟩) ⟨2,3⟩)).1).2 = true := by
  decide

/-- The affine matrix with diagonal (s.x, s.y, 0, 1) and translation column
(p.x, p.y, p.z, 1): a pure translate-then-scale, no rotation or other factor. -/
def affineTranslateScale (p : Vec3) (s : Vec2) : Mat4 :=
  ⟨⟨s.x, 0, 0, 0⟩, ⟨0, s.y, 0, 0⟩, ⟨0, 0, 0, 0⟩, ⟨p.x, p.y, p.z, 1⟩⟩

/-- C4: whenever the position or scale has been set (the dirty flag is up),
the matrix a draw uploads equals
translate(mat4(1), position) * scale(mat4(1), vec3(scale.x, scale.y, 0)),
and that product is exactly the affine matrix with diagonal
(scale.x, scale.y, 0, 1) and translation column the position — no rotation or
any other factor. -/
theorem draw_transform_translate_scale (st : RenderState) (h : st.dirty = true) :
    (draw_update st).1.transform
      = mulMat (glmTranslate matIdent st.position)
          (glmScale matIdent ⟨st.scale.x, st.scale.y, 0⟩)
    ∧ (draw_update st).1.transform
      = affineTranslateScale st.position st.scale := by
  have hd : (draw_update st).1.transform = recomputedTransform st := by
    simp [draw_update, h]
  rw [hd]
  refine ⟨rfl, ?_⟩
  simp only [recomputedTransform, mulMat, mulMV, glmTranslate, glmScale,
    matIdent, Vec4.smul, Vec4.add, affineTranslateScale, Mat4.mk.injEq,
    Vec4.mk.injEq]
  norm_num

/-- Witness for C4 at a concrete input: the square of main.cpp, scale
(200, 100) and center position (400, 300, 0). -/
theorem draw_transform_translate_scale_witness :
    (draw_update (set_position_center
        (set_scale (mkRenderable ⟨0,0,0⟩ ⟨1,1⟩) ⟨200,100⟩) ⟨400,300,0⟩)).1.transform
      = affineTranslateScale ⟨400,300,0⟩ ⟨200,100⟩ :=
  (draw_transform_translate_scale
    (set_position_center (set_scale (mkRenderable ⟨0,0,0⟩ ⟨1,1⟩) ⟨200,100⟩)
      ⟨400,300,0⟩) rfl).2

/-! ## `Renderable::get_position` (`src/include/wnlrenderer/renderer.h`,
lines 560-576)

`get_position(PositionTopLeft)` computes `position_ - scale_/2` per
coordinate, applies `std::round` (round half away from zero) and returns the
results as a `std::pair<uint32_t, uint32_t>`. -/

/-- `std::round`: rounds half away from zero. -/
def roundQ (q : ℚ) : ℤ := if 0 ≤ q then ⌊q + 1/2⌋ else -⌊(-q) + 1/2⌋

def get_position_center (st : RenderState) : ℤ × ℤ :=
  (roundQ st.position.x, roundQ st.position.y)

def get_position_topleft (st : RenderState) : ℤ × ℤ :=
  (roundQ (st.position.x - st.scale.x / 2), roundQ (st.position.y - st.scale.y / 2))

/-- The `std::pair<uint32_t, uint32_t>` actually returned; the conversion of a
non-negative rounded float to uint32_t is its integer value. -/
def get_position_topleft_u32 (st : RenderState) : ℕ × ℕ :=
  ((get_position_topleft st).1.toNat, (get_position_topleft st).2.toNat)

/-- C10: set_position(PositionTopLeft, p) stores the center
(p.x + scale.x/2, p.y + scale.y/2, p.z); get_position(PositionTopLeft)
returns the rounded center minus scale/2; hence with the scale unchanged in
between and non-negative coordinates the unsigned pair returned after the
set is exactly (round(p.x), round(p.y)), and those rounded values are
non-negative, so the uint32_t conversion is faithful. -/
theorem topleft_roundtrip (st : RenderState) (p : Vec3)
    (hx : 0 ≤ p.x) (hy : 0 ≤ p.y) :
    (set_position_topleft st p).position
      = ⟨p.x + st.scale.x / 2, p.y + st.scale.y / 2, p.z⟩
    ∧ get_position_topleft (set_position_topleft st p) = (roundQ p.x, roundQ p.y)
    ∧ get_position_topleft_u32 (set_position_topleft st p)
      = ((roundQ p.x).toNat, (roundQ p.y).toNat)
    ∧ 0 ≤ roundQ p.x ∧ 0 ≤ roundQ p.y := by
  have hxe : p.x + st.scale.x / 2 - st.scale.x / 2 = p.x := by ring
  have hye : p.y + st.scale.y / 2 - st.scale.y / 2 = p.y := by ring
  have hget : get_position_topleft (set_position_topleft st p)
      = (roundQ p.x, roundQ p.y) := by
    simp only [get_position_topleft, set_position_topleft]
    rw [hxe, hye]
  refine ⟨rfl, hget, ?_, ?_, ?_⟩
  · simp only [get_position_topleft_u32, hget]
  · have : (0 : ℤ) ≤ ⌊p.x + 1/2⌋ := by
      rw [Int.le_floor]
      push_cast
      linarith
    simp only [roundQ, if_pos hx]
    exact this
  · have : (0 : ℤ) ≤ ⌊p.y + 1/2⌋ := by
      rw [Int.le_floor]
      push_cast
      linarith
    simp only [roundQ, if_pos hy]
    exact this

/-- Witness for C10 at a concrete input: scale (4, 6), top-left position
(10, 20, 0); the returned unsigned pair is (10, 20). -/
theorem topleft_roundtrip_witness :
    get_position_topleft_u32
        (set_position_topleft (mkRenderable ⟨0,0,0⟩ ⟨4,6⟩) ⟨10,20,0⟩)
      = ((roundQ 10).toNat, (roundQ 20).toNat) :=
  (topleft_roundtrip (mkRenderable ⟨0,0,0⟩ ⟨4,6⟩) ⟨10,20,0⟩
    (by norm_num) (by norm_num)).2.2.1

/-! ## Move construction of the GPU-resource wrappers
(`src/include/wnlrenderer/renderer.h`)

Each move constructor is modelled as a function from the source object to the
pair (destination, source-after-move).  The constructors use
`std::exchange(other.handle_, 0)` on the GL handles only; every other data
member of the destination is default-initialized (empty caches, null
shared_ptr) or — for the plain ints `width_`, `height_`, `buffer_size_` of
`Texture` and `count_` of `IndexBuffer` — left uninitialized, modelled as
`none`. -/

structure TextureObj where
  textureId : Nat
  pbo : Nat
  width : Option Int
  height : Option Int
  buffer_size : Option Int
deriving DecidableEq

def texChannels (format : Nat) : Int :=
  if format = GL_RGBA then 4 else if format = GL_RGB then 3 else 1

/-- `Texture<format>::Texture(width, height)`: records width, height and the
staging-buffer size width*height*channels; the GL-generated texture and pixel
buffer ids are oracle parameters. -/
def mkTexture (format : Nat) (w h : Int) (texId pboId : Nat) : TextureObj :=
  ⟨texId, pboId, some w, some h, some (w * h * texChannels format)⟩

/-- `Texture::Texture(Texture&&)` (lines 389-392): exchanges `textureId_` and
`pbo_` with 0; `width_`, `height_` and `buffer_size_` are absent from the
initializer list, so in the destination they are uninitialized (`none`),
while the source keeps its old values. -/
def textureMoveCtor (src : TextureObj) : TextureObj × TextureObj :=
  (⟨src.textureId, src.pbo, none, none, none⟩,
   ⟨0, 0, src.width, src.height, src.buffer_size⟩)

structure IndexBufferObj where
  ibo : Nat
  count : Option Nat
deriving DecidableEq

/-- `IndexBuffer::IndexBuffer()`: generates a buffer id; `count_` has no
initializer and is set only by `set_data`. -/
def mkIndexBuffer (id : Nat) : IndexBufferObj := ⟨id, none⟩

/-- `IndexBuffer::set_data(data)`: stores `count_ = data.size()`. -/
def ib_set_data (b : IndexBufferObj) (n : Nat) : IndexBufferObj :=
  { b with count := some n }

/-- `IndexBuffer::IndexBuffer(IndexBuffer&&)` (lines 202-204): exchanges
`ibo_` with 0; `count_` is absent from the initializer list, so the
destination's count is uninitialized while the source keeps its value. -/
def indexBufferMoveCtor (src : IndexBufferObj) : IndexBufferObj × IndexBufferObj :=
  (⟨src.ibo, none⟩, ⟨0, src.count⟩)

structure ShaderProgramObj where
  prog : Nat
  uniformCache : List (String × Int)
  attribCache : List (String × Int)
deriving DecidableEq

/-- `ShaderProgram::ShaderProgram(ShaderProgram&&)` (lines 92-94): exchanges
`shaderProgram_` with 0; the two location caches of the destination are
default-constructed empty, the source keeps its caches. -/
def shaderProgramMoveCtor (src : ShaderProgramObj) :
    ShaderProgramObj × ShaderProgramObj :=
  (⟨src.prog, [], []⟩, ⟨0, src.uniformCache, src.attribCache⟩)

structure VertexBufferObj where
  vbo : Nat
deriving DecidableEq

/-- `VertexBuffer::VertexBuffer(VertexBuffer&&)` (lines 164-166). -/
def vertexBufferMoveCtor (src : VertexBufferObj) :
    VertexBufferObj × VertexBufferObj :=
  (⟨src.vbo⟩, ⟨0⟩)

structure VertexArrayObj where
  vao : Nat
  vboRef : Option Nat
deriving DecidableEq

/-- `VertexArray::VertexArray(VertexArray&&)` (lines 298-300): exchanges
`vao_` with 0; the `shared_ptr` member `vbo_` is absent from the initializer
list, so the destination's reference is default-constructed null while the
source keeps its reference. -/
def vertexArrayMoveCtor (src : VertexArrayObj) :
    VertexArrayObj × VertexArrayObj :=
  (⟨src.vao, none⟩, ⟨0, src.vboRef⟩)

/-- C3 (code evaluation): move construction does transfer the GL handle and
null the source's handle, but it does not carry the remaining state.  For a
Texture<GL_RGBA>(800, 600) with ids (5, 7), the destination of a move holds
handles 5 and 7 and the source holds 0, yet the destination's width, height
and staging-buffer size are uninitialized (the source still holds
some 800 / some 600 / some 1920000); for an IndexBuffer holding 6 indices,
the destination of a move holds the source's buffer id but an uninitialized
index count; the ShaderProgram move transfers the program handle and resets
the source to 0. -/
theorem move_ctor_drops_ancillary_state :
    (textureMoveCtor (mkTexture GL_RGBA 800 600 5 7)).1.textureId = 5
    ∧ (textureMoveCtor (mkTexture GL_RGBA 800 600 5 7)).1.pbo = 7
    ∧ (textureMoveCtor (mkTexture GL_RGBA 800 600 5 7)).2.textureId = 0
    ∧ (textureMoveCtor (mkTexture GL_RGBA 800 600 5 7)).2.pbo = 0
    ∧ (mkTexture GL_RGBA 800 600 5 7).width = some 800
    ∧ (mkTexture GL_RGBA 800 600 5 7).buffer_size = some 1920000
    ∧ (textureMoveCtor (mkTexture GL_RGBA 800 600 5 7)).1.width = none
    ∧ (textureMoveCtor (mkTexture GL_RGBA 800 600 5 7)).1.height = none
    ∧ (textureMoveCtor (mkTexture GL_RGBA 800 600 5 7)).1.buffer_size = none
    ∧ (ib_set_data (mkIndexBuffer 4) 6).count = some 6
    ∧ (indexBufferMoveCtor (ib_set_data (mkIndexBuffer 4) 6)).1.ibo = 4
    ∧ (indexBufferMoveCtor (ib_set_data (mkIndexBuffer 4) 6)).2.ibo = 0
    ∧ (indexBufferMoveCtor (ib_set_data (mkIndexBuffer 4) 6)).1.count = none
    ∧ (shaderProgramMoveCtor ⟨9, [("u_texture", 0)], []⟩).1.prog = 9
    ∧ (shaderProgramMoveCtor ⟨9, [("u_texture", 0)], []⟩).2.prog = 0 := by
  decide

/-! ## `LoadShader` and the `ShaderProgram` constructor
(`src/include/wnlrenderer/renderer.h`, lines 18-87)

The GL driver is an oracle of Booleans: whether `glCreateShader` /
`glCreateProgram` return a nonzero handle, whether compilation / linking
succeed, and whether the info-log length is greater than 1 (which only
selects between the formatted and the plain error message).  Shader object
ids are 1 (vertex) and 2 (fragment), the program id is 3.  The state tracks
which GL objects are currently live, so each `glDelete*` call is visible. -/

structure GLObjects where
  shaders : List Nat
  programs : List Nat
deriving DecidableEq

/-- `LoadShader(type, src)`: create, compile, on failure read the log, delete
the shader and throw; on success return the shader id. -/
def loadShader (alloc compiled logLong : Bool) (id : Nat) (st : GLObjects) :
    Except String Nat × GLObjects :=
  if alloc = false then (Except.error "failed to allocate shader", st)
  else
    let st1 : GLObjects := ⟨id :: st.shaders, st.programs⟩
    if compiled then (Except.ok id, st1)
    else
      let st2 : GLObjects := ⟨st1.shaders.erase id, st1.programs⟩
      if logLong then (Except.error "Error compiling shader -- info log", st2)
      else (Except.error "Error compiling shader", st2)

/-- `ShaderProgram::ShaderProgram(vertex_shader, fragment_shader)`: load both
shaders, create the program, attach, link, detach and delete the shaders,
then check the link status, deleting the program and throwing on failure.
Oracle bits: va/vc/vl for the vertex shader, fa/fc/fl for the fragment
shader, pa for program allocation, lk for the link status, pl for the
program info-log length. -/
def shaderProgramCtor (va vc vl fa fc fl pa lk pl : Bool) :
    Except String Nat × GLObjects :=
  match loadShader va vc vl 1 ⟨[], []⟩ with
  | (Except.error e, st) => (Except.error e, st)
  | (Except.ok vs, st1) =>
    match loadShader fa fc fl 2 st1 with
    | (Except.error e, st) => (Except.error e, st)
    | (Except.ok fs, st2) =>
      if pa = false then (Except.error "Failed to allocate shader program", st2)
      else
        let st3 : GLObjects := ⟨st2.shaders, 3 :: st2.programs⟩
        let st4 : GLObjects := ⟨(st3.shaders.erase vs).erase fs, st3.programs⟩
        if lk then (Except.ok 3, st4)
        else
          let st5 : GLObjects := ⟨st4.shaders, st4.programs.erase 3⟩
          if pl then
            (Except.error "Error linking shader program -- info log", st5)
          else (Except.error "Error linking shader program", st5)

/-- C5: the ShaderProgram constructor throws exactly when a `glCreate*` call
returns 0 or compilation or linking fails, and succeeds (returning the
program, with both shader objects already deleted) otherwise.  The live-set
equalities show each failure path deletes the object it was partially
creating: a shader that failed to compile is never live afterwards (shader 1
is live only if its compilation succeeded, likewise shader 2), and the
program is live only when linking succeeded. -/
theorem shader_program_ctor_failure_paths :
    ∀ va vc vl fa fc fl pa lk pl : Bool,
    (shaderProgramCtor va vc vl fa fc fl pa lk pl).1.toOption
      = (if va && vc && fa && fc && pa && lk then some 3 else none)
    ∧ (shaderProgramCtor va vc vl fa fc fl pa lk pl).2.shaders.contains 1
      = (va && vc && !(fa && fc && pa))
    ∧ (shaderProgramCtor va vc vl fa fc fl pa lk pl).2.shaders.contains 2
      = (va && vc && fa && fc && !pa)
    ∧ (shaderProgramCtor va vc vl fa fc fl pa lk pl).2.programs.contains 3
      = (va && vc && fa && fc && pa && lk) := by
  decide

/-! ## GL call traces: `Renderable::draw` and the render loop of
`src/src/main.cpp` (lines 80-94)

Each frame-relevant GL / GLFW call is an event; `Renderable::draw` and the
loop body are translated into the lists of events they emit, in order. -/

inductive GLCall where
  | viewport
  | clear
  | useProgram
  | setUniform (name : String)
  | activeTexture (unit : Nat)
  | bindTexture (id : Nat)
  | bindVertexArray
  | bindIndexBuffer
  | drawElements
  | swapBuffers
deriving DecidableEq

/-- The texture members of a `Renderable<format>`: `texture_y` always, and
`texture_u`, `texture_v` only filled by the `GL_RED` constructor (otherwise
they stay default-constructed null shared_ptrs). -/
structure RenderTex where
  texture_y : Option Nat
  texture_u : Option Nat
  texture_v : Option Nat
deriving DecidableEq

def texCount (r : RenderTex) : Nat :=
  (if r.texture_y.isSome then 1 else 0)
  + (if r.texture_u.isSome then 1 else 0)
  + (if r.texture_v.isSome then 1 else 0)

/-- The `requires(format == GL_RGBA || format == GL_RGB || format == GL_RED)`
constraint on `Texture` and `Renderable`. -/
def validFormat (f : Nat) : Bool :=
  decide (f = GL_RGBA) || decide (f = GL_RGB) || decide (f = GL_RED)

/-- The two-argument `Renderable` constructor, available only when
`format != GL_RED`. -/
def mkRenderableSingle (f : Nat) (tex : Nat) : Option RenderTex :=
  if validFormat f && !(decide (f = GL_RED)) then some ⟨some tex, none, none⟩
  else none

/-- The four-argument (Y, U, V) `Renderable` constructor, available only when
`format == GL_RED`. -/
def mkRenderableYUV (f : Nat) (ty tu tv : Nat) : Option RenderTex :=
  if validFormat f && decide (f = GL_RED) then some ⟨some ty, some tu, some tv⟩
  else none

/-- `Mesh::draw()`: bind the vertex array and index buffer, then one
`glDrawElements`. -/
def meshDrawTrace : List GLCall :=
  [GLCall.bindVertexArray, GLCall.bindIndexBuffer, GLCall.drawElements]

/-- The GL calls of `Renderable::draw(shader)`; overload resolution on the
`requires` clauses selects the three-plane body exactly when
`format == GL_RED`. -/
def drawTrace (f : Nat) (r : RenderTex) : List GLCall :=
  if f = GL_RED then
    [GLCall.activeTexture 0, GLCall.bindTexture (r.texture_y.getD 0),
     GLCall.activeTexture 1, GLCall.bindTexture (r.texture_u.getD 0),
     GLCall.activeTexture 2, GLCall.bindTexture (r.texture_v.getD 0),
     GLCall.setUniform "u_texture", GLCall.setUniform "u_Transform"]
      ++ meshDrawTrace
  else
    [GLCall.activeTexture 0, GLCall.bindTexture (r.texture_y.getD 0),
     GLCall.setUniform "u_texture", GLCall.setUniform "u_Transform"]
      ++ meshDrawTrace

/-- One iteration of the render loop of main.cpp: glViewport, glClear, use
the shader, set the projection uniform, `square.draw(shaderProgram)` (the
`GL_RGBA` renderable built from one texture), swap buffers. -/
def frameTrace (texId : Nat) : List GLCall :=
  [GLCall.viewport, GLCall.clear, GLCall.useProgram,
   GLCall.setUniform "u_Projection"]
    ++ drawTrace GL_RGBA ⟨some texId, none, none⟩
    ++ [GLCall.swapBuffers]

/-- Fold a trace into (texture unit, texture id) binding pairs, tracking the
currently active texture unit (initially unit 0). -/
def bindPairs : List GLCall → Nat → List (Nat × Nat)
  | [], _ => []
  | GLCall.activeTexture u :: rest, _ => bindPairs rest u
  | GLCall.bindTexture i :: rest, cur => (cur, i) :: bindPairs rest cur
  | _ :: rest, cur => bindPairs rest cur

/-- The prefix of a trace up to (excluding) the draw call. -/
def beforeDraw (t : List GLCall) : List GLCall :=
  t.takeWhile (fun c => decide (c ≠ GLCall.drawElements))

/-- Project a call onto the step of C7 it belongs to: 0 clear, 1 use shader,
2 set a uniform, 3 texture binding (glActiveTexture / glBindTexture), 4 the
draw call, 5 swap buffers; other calls belong to no claimed step. -/
def stepKind : GLCall → Option Nat
  | GLCall.clear => some 0
  | GLCall.useProgram => some 1
  | GLCall.setUniform _ => some 2
  | GLCall.activeTexture _ => some 3
  | GLCall.bindTexture _ => some 3
  | GLCall.drawElements => some 4
  | GLCall.swapBuffers => some 5
  | _ => none

def claimSteps (t : List GLCall) : List Nat := t.filterMap stepKind

def weaklyIncreasing : List Nat → Bool
  | [] => true
  | [_] => true
  | a :: b :: rest => decide (a ≤ b) && weaklyIncreasing (b :: rest)

/-- The order C7 claims: the clear, use-shader, uniform, texture-bind, draw
and swap steps occur in this order with no step repeated or reordered —
i.e. the projected step sequence is weakly increasing, each of clear /
use-shader / draw / swap occurs exactly once and the uniform and binding
steps are present. -/
def isClaimedOrder (t : List GLCall) : Bool :=
  weaklyIncreasing (claimSteps t)
  && ((claimSteps t).count 0 == 1) && ((claimSteps t).count 1 == 1)
  && ((claimSteps t).count 4 == 1) && ((claimSteps t).count 5 == 1)
  && ((claimSteps t).count 2 != 0) && ((claimSteps t).count 3 != 0)

/-- C7 counterexample: the frame does not follow the claimed phase order
clear, use shader, set uniforms, bind textures, draw, swap.  Concretely (with
texture id 1) the projected step sequence is 0,1,2,3,3,2,2,4,5: the
projection uniform is set before the texture binding, and the sampler and
transform uniforms after it, so the uniform step recurs after the binding
step. -/
theorem frame_order_claim_false : isClaimedOrder (frameTrace 1) = false := by
  decide

/-- C7 amended: each iteration of the render loop performs, in order:
viewport, clear, use the shader program, set the projection uniform, activate
unit 0 and bind the texture, set the sampler and transform uniforms, bind the
vertex array and index buffer, issue exactly one draw call, swap buffers —
clear, use-program, draw and swap each occur exactly once per frame, but
uniform setting occurs both before and after the texture binding. -/
theorem frame_order_actual (texId : Nat) :
    frameTrace texId
      = [GLCall.viewport, GLCall.clear, GLCall.useProgram,
         GLCall.setUniform "u_Projection", GLCall.activeTexture 0,
         GLCall.bindTexture texId, GLCall.setUniform "u_texture",
         GLCall.setUniform "u_Transform", GLCall.bindVertexArray,
         GLCall.bindIndexBuffer, GLCall.drawElements, GLCall.swapBuffers]
    ∧ (frameTrace texId).count GLCall.clear = 1
    ∧ (frameTrace texId).count GLCall.useProgram = 1
    ∧ (frameTrace texId).count GLCall.drawElements = 1
    ∧ (frameTrace texId).count GLCall.swapBuffers = 1 := by
  refine ⟨rfl, ?_, ?_, ?_, ?_⟩ <;>
    simp [frameTrace, drawTrace, meshDrawTrace, GL_RGBA, GL_RED, List.count_cons]

/-- C8: a Renderable built with format GL_RGBA or GL_RGB holds exactly one
texture (the two-texture constructor is unavailable for GL_RED), a
Renderable built with format GL_RED holds exactly three (the Y, U, V
constructor is unavailable otherwise); before issuing the mesh draw, draw
binds the single texture on unit 0 in the first case and the three planes on
units 0, 1, 2 respectively in the GL_RED case, and every draw issues exactly
one draw call. -/
theorem renderable_texture_binding :
    ∀ t ty tu tv : Nat,
    (mkRenderableSingle GL_RGBA t).map texCount = some 1
    ∧ (mkRenderableSingle GL_RGB t).map texCount = some 1
    ∧ mkRenderableSingle GL_RED t = none
    ∧ (mkRenderableYUV GL_RED ty tu tv).map texCount = some 3
    ∧ mkRenderableYUV GL_RGBA ty tu tv = none
    ∧ mkRenderableYUV GL_RGB ty tu tv = none
    ∧ (mkRenderableSingle GL_RGBA t).map
        (fun r => bindPairs (beforeDraw (drawTrace GL_RGBA r)) 0) = some [(0, t)]
    ∧ (mkRenderableSingle GL_RGB t).map
        (fun r => bindPairs (beforeDraw (drawTrace GL_RGB r)) 0) = some [(0, t)]
    ∧ (mkRenderableYUV GL_RED ty tu tv).map
        (fun r => bindPairs (beforeDraw (drawTrace GL_RED r)) 0)
      = some [(0, ty), (1, tu), (2, tv)]
    ∧ (∀ f : Nat, ∀ r : RenderTex,
        (drawTrace f r).count GLCall.drawElements = 1) := by
  intro t ty tu tv
  refine ⟨rfl, rfl, rfl, rfl, rfl, rfl, rfl, rfl, rfl, ?_⟩
  intro f r
  by_cases hf : f = GL_RED <;>
    simp [drawTrace, hf, meshDrawTrace, List.count_cons]

end WnL
